import Mathlib

/-!
Shallow embedding of the Sepolia crowdfunding integration-test harness
(`cast_interactor.py`, `uniswap_helper.py`, `sepolia_test.py`).

Modelling conventions:
* Python strings that are manipulated character by character are `List Char`;
  strings that are only compared or concatenated are `String`.
* The output of the external `cast` subprocess is `Option String` /
  `Option (List Char)` (`none` models the Python `None` absent result).
* A Python exception that can escape a function is modelled with
  `Except Unit` (the `Unit` payload stands for the raised exception).
* Python machine-independent integers are `Nat` / `Int` (Python ints are
  arbitrary precision, so no wrap-around modelling is needed).
-/

/-- Python truthiness of an optional string: `None` and `""` are falsy. -/
def truthy : Option String → Bool
  | none => false
  | some s => s ≠ ""

/-- Value of one hexadecimal digit as accepted by Python `int(-, 16)`. -/
def hexDigitVal (c : Char) : Option Nat :=
  if '0' ≤ c ∧ c ≤ '9' then some (c.toNat - '0'.toNat)
  else if 'a' ≤ c ∧ c ≤ 'f' then some (c.toNat - 'a'.toNat + 10)
  else if 'A' ≤ c ∧ c ≤ 'F' then some (c.toNat - 'A'.toNat + 10)
  else none

/-- Run of hex digits with optional single underscores between digits
    (PEP 515 grouping), accumulating into `acc`; models the tail of the
    digit parse of Python `int(-, 16)`. -/
def hexDigitsGo (acc : Nat) : List Char → Option Nat
  | [] => some acc
  | '_' :: c :: rest =>
    match hexDigitVal c with
    | some v => hexDigitsGo (acc * 16 + v) rest
    | none => none
  | ['_'] => none
  | c :: rest =>
    match hexDigitVal c with
    | some v => hexDigitsGo (acc * 16 + v) rest
    | none => none

/-- A run of hex digits must start with a digit (not an underscore). -/
def parseHexStart : List Char → Option Nat
  | [] => none
  | c :: rest =>
    match hexDigitVal c with
    | some v => hexDigitsGo v rest
    | none => none

/-- After a `0x` base marker Python allows one separating underscore. -/
def parseAfterBaseMarker : List Char → Option Nat
  | '_' :: rest => parseHexStart rest
  | l => parseHexStart l

/-- Unsigned body of Python `int(-, 16)`: optional `0x`/`0X` marker, then at
    least one hex digit. -/
def parseHexBody : List Char → Option Nat
  | '0' :: 'x' :: rest => parseAfterBaseMarker rest
  | '0' :: 'X' :: rest => parseAfterBaseMarker rest
  | l => parseHexStart l

/-- Characters Python `int` strips around a numeric literal (ASCII subset). -/
def isPySpace (c : Char) : Bool :=
  c = ' ' ∨ c = '\t' ∨ c = '\n' ∨ c = '\r' ∨ c = '\x0b' ∨ c = '\x0c'

/-- Strip leading and trailing whitespace from a character list. -/
def pyStrip (l : List Char) : List Char :=
  ((l.dropWhile isPySpace).reverse.dropWhile isPySpace).reverse

/-- Model of Python `int(s, 16)`: `some n` is a successful conversion,
    `none` models the `ValueError` raised on a malformed literal. -/
def pyIntBase16 (s : String) : Option Int :=
  match pyStrip s.data with
  | '+' :: t => (parseHexBody t).map (fun n => (n : Int))
  | '-' :: t => (parseHexBody t).map (fun n => -(n : Int))
  | t => (parseHexBody t).map (fun n => (n : Int))

/-- The fixed part of every cast invocation built by
    `CastInteractor.run_cast_command`:
    `["cast"] + command + ["--rpc-url", self.rpc_url]`. -/
def baseCommand (rpc : String) (command : List String) : List String :=
  ["cast"] ++ command ++ ["--rpc-url", rpc]

/-- Assembled argument vector of `CastInteractor.run_cast_command`
    (cast_interactor.py lines 30-35): the signing-key flag is appended
    inside `if any(cmd in command for cmd in ["send", "call"])` guarded by
    the inner `if "send" in command` (Python `in` on a list is exact
    element membership). -/
def full_command (rpc privateKey : String) (command : List String) : List String :=
  let base := baseCommand rpc command
  if ["send", "call"].any (fun c => command.contains c) then
    if command.contains "send" then base ++ ["--private-key", privateKey]
    else base
  else base

/-- Outcome of the `subprocess.run` call inside `run_cast_command`:
    it can time out, raise some other exception, or complete with a return
    code, captured stdout and captured stderr. -/
inductive SubprocessOutcome where
  | timeout
  | raised (msg : String)
  | completed (returncode : Int) (stdout : String) (stderr : String)

/-- Result handling of `CastInteractor.run_cast_command`
    (cast_interactor.py lines 37-54): timeout, any other exception and a
    non-zero exit code all yield `None`; a zero exit code yields the
    stripped stdout. -/
def run_cast_command (outcome : SubprocessOutcome) : Option String :=
  match outcome with
  | .timeout => none
  | .raised _ => none
  | .completed rc out _ => if rc ≠ 0 then none else some out.trim

/-- The command tokens appearing in the one log line that quotes the
    command (cast_interactor.py line 38): `' '.join(full_command[:3])`. -/
def loggedExecutingTokens (rpc privateKey : String) (command : List String) : List String :=
  (full_command rpc privateKey command).take 3

/-- Model of `CastInteractor.get_balance` applied to the executor result
    (cast_interactor.py line 62): `int(result, 16) if result else 0`.
    A malformed non-empty result makes `int` raise, modelled as `.error`. -/
def get_balance (result : Option String) : Except Unit Int :=
  if truthy result then
    match pyIntBase16 (result.getD "") with
    | some n => .ok n
    | none => .error ()
  else .ok 0

/-- Model of Python `str.zfill(width)`: pad on the left with zeros up to
    `width`, keeping a leading `+`/`-` sign in front of the padding. -/
def pyZfill (width : Nat) (s : List Char) : List Char :=
  if width ≤ s.length then s
  else
    match s with
    | [] => List.replicate width '0'
    | c :: rest =>
      if c = '+' ∨ c = '-' then c :: (List.replicate (width - s.length) '0' ++ rest)
      else List.replicate (width - s.length) '0' ++ s

/-- The 40-hex-digit normalization of `CastInteractor.get_campaign_address`
    (cast_interactor.py lines 99-105): keep the last 40 characters when
    longer, `zfill` to 40 when shorter. -/
def normalizeHex40 (h : List Char) : List Char :=
  if 40 < h.length then h.drop (h.length - 40)
  else if h.length < 40 then pyZfill 40 h
  else h

/-- Campaign-address canonicalization of `CastInteractor.get_campaign_address`
    (cast_interactor.py lines 97-107): a result starting with `0x` has the
    part after the prefix normalized to 40 characters; any other result
    (including the empty string, which fails the truthiness guard in the
    source) is returned unchanged.  The same normalization is inlined in
    `SepoliaTestSuite.get_campaign_token_address` (sepolia_test.py 279-286). -/
def canonicalizeAddress (r : List Char) : List Char :=
  if r.take 2 = ['0', 'x'] then ['0', 'x'] ++ normalizeHex40 (r.drop 2)
  else r

/-- Lift of `get_campaign_address` result handling over an absent result. -/
def get_campaign_address (result : Option (List Char)) : Option (List Char) :=
  match result with
  | none => none
  | some r => some (canonicalizeAddress r)

/-- The 42-character all-zero address literal compared against in
    `UniswapV2Helper.get_pair_address` (uniswap_helper.py line 32). -/
def zeroAddress : List Char := '0' :: 'x' :: List.replicate 40 '0'

/-- Model of `UniswapV2Helper.get_pair_address` result handling
    (uniswap_helper.py lines 32-36): a truthy result different from the
    all-zero address is returned as `"0x" + result[2:].zfill(40)`;
    everything else (absent, empty, or the 42-character zero address)
    yields `None`. -/
def get_pair_address (result : Option (List Char)) : Option (List Char) :=
  match result with
  | none => none
  | some r =>
    if r ≠ [] ∧ r ≠ zeroAddress then some (['0', 'x'] ++ pyZfill 40 (r.drop 2))
    else none

/-- Model of `UniswapV2Helper.get_amount_out` (uniswap_helper.py 61-71):
    the Uniswap V2 constant-product output with a 0.3 percent fee. -/
def get_amount_out (amount_in reserve_in reserve_out : Nat) : Nat :=
  if reserve_in = 0 ∨ reserve_out = 0 then 0
  else
    let amount_in_with_fee := amount_in * 997
    let numerator := amount_in_with_fee * reserve_out
    let denominator := reserve_in * 1000 + amount_in_with_fee
    if 0 < denominator then numerator / denominator else 0

/-- The five environment variables read by `SepoliaTestSuite._load_config`
    (sepolia_test.py lines 65-69); `none` models an unset variable. -/
structure EnvVars where
  rpc_url : Option String
  creator_private_key : Option String
  donor_private_key : Option String
  crowdfunding_factory_address : Option String
  usdc_token_address : Option String

/-- The `ContractAddresses` dataclass of sepolia_test.py. -/
structure ContractAddresses where
  factory : String
  usdc : String

/-- The `TestConfig` dataclass of sepolia_test.py (lines 40-49), with its
    three defaulted numeric fields. -/
structure TestConfig where
  rpc_url : String
  creator_private_key : String
  donor_private_key : String
  addresses : ContractAddresses
  funding_goal : Nat := 1000 * 10 ^ 6
  campaign_duration : Nat := 120
  min_contribution : Nat := 1 * 10 ^ 6

/-- The list comprehension of sepolia_test.py lines 72-78: the names of the
    required variables whose value is falsy, in declaration order. -/
def missingVars (e : EnvVars) : List String :=
  (if truthy e.rpc_url then [] else ["RPC_URL"])
    ++ (if truthy e.creator_private_key then [] else ["CREATOR_PRIVATE_KEY"])
    ++ (if truthy e.donor_private_key then [] else ["DONOR_PRIVATE_KEY"])
    ++ (if truthy e.crowdfunding_factory_address then [] else ["CROWDFUNDING_FACTORY_ADDRESS"])
    ++ (if truthy e.usdc_token_address then [] else ["USDC_TOKEN_ADDRESS"])

/-- Model of Python `", ".join` as used to build the configuration error. -/
def joinComma : List String → String
  | [] => ""
  | [a] => a
  | a :: b :: rest => a ++ ", " ++ joinComma (b :: rest)

/-- Model of `SepoliaTestSuite._load_config` (sepolia_test.py 63-87):
    raises (`.error`) with a message enumerating every missing variable
    when `not all([...])`, otherwise builds the `TestConfig` record with
    its defaulted numeric fields. -/
def _load_config (e : EnvVars) : Except String TestConfig :=
  if ¬ ([e.rpc_url, e.creator_private_key, e.donor_private_key,
         e.crowdfunding_factory_address, e.usdc_token_address].all truthy) then
    .error ("Missing environment variables: " ++ joinComma (missingVars e))
  else
    .ok { rpc_url := e.rpc_url.getD ""
          creator_private_key := e.creator_private_key.getD ""
          donor_private_key := e.donor_private_key.getD ""
          addresses := { factory := e.crowdfunding_factory_address.getD ""
                         usdc := e.usdc_token_address.getD "" } }

/-- One iteration's observations in `SepoliaTestSuite.wait_for_campaign_end`
    (sepolia_test.py 158-196): the result of the `updateCampaignState()`
    send and the result of the `getCampaignState()(uint8)` call. -/
structure PollObs where
  updateResult : Option String
  stateResult : Option String

/-- Sleep performed before the state read in one poll iteration:
    5 seconds when the state-update transaction reported success. -/
def pollPreSleep (o : PollObs) : Nat :=
  if truthy o.updateResult then 5 else 0

/-- Continuation wrapper for a non-decisive poll iteration: the iteration
    contributes its pre-sleep plus the unconditional 10-second sleep to the
    total sleep time of the rest of the loop. -/
def pollContinue (pre : Nat) (k : Except Unit (Bool × Nat)) : Except Unit (Bool × Nat) :=
  match k with
  | .ok (r, s) => .ok (r, pre + 10 + s)
  | .error e => .error e

/-- The polling loop of `wait_for_campaign_end`, driven by a trace of
    per-iteration observations.  `elapsed` models `time.time() - start_time`
    (accounted as accumulated sleep seconds) and is checked against
    `maxWait` at the top of each iteration, as in the source.  The value is
    `(result, total sleep seconds performed)`; `.error` models the
    `ValueError` escaping from `int(state_result, 16)` on a malformed state
    string.  An exhausted trace gives the loop-exit result `(false, 0)`. -/
def waitLoop : List PollObs → Nat → Nat → Except Unit (Bool × Nat)
  | [], _, _ => .ok (false, 0)
  | o :: rest, elapsed, maxWait =>
    if elapsed < maxWait then
      let pre := pollPreSleep o
      if truthy o.stateResult then
        match pyIntBase16 (o.stateResult.getD "") with
        | none => .error ()
        | some st =>
          if st = 0 then pollContinue pre (waitLoop rest (elapsed + pre + 10) maxWait)
          else if st = 1 then .ok (true, pre)
          else if st = 2 then .ok (false, pre)
          else pollContinue pre (waitLoop rest (elapsed + pre + 10) maxWait)
      else pollContinue pre (waitLoop rest (elapsed + pre + 10) maxWait)
    else .ok (false, 0)

/-- `SepoliaTestSuite.wait_for_campaign_end` with its default
    `max_wait = 150`, starting from zero elapsed time. -/
def wait_for_campaign_end (obs : List PollObs) (maxWait : Nat) : Except Unit (Bool × Nat) :=
  waitLoop obs 0 maxWait

/-- Step outcomes of one execution of
    `SepoliaTestSuite.test_scenario_2_success_with_liquidity`
    (sepolia_test.py 328-396), in the order the steps are invoked.
    `balanceResult` is the outcome of the `get_balance` read (`.error`
    models the exception it can raise, caught by the scenario's broad
    `except`); `swapOk` is the result of `test_token_swap`, which cannot
    raise (it has its own internal `except`). -/
structure Scenario2Env where
  createResult : Option (Nat × String)
  contributeOk : Bool
  waitOk : Bool
  poolOk : Bool
  tokenAddress : Option String
  claimOk : Bool
  donorAddress : Option String
  balanceResult : Except Unit Int
  swapOk : Bool

/-- Control flow of `test_scenario_2_success_with_liquidity`: each lifecycle
    step aborts with `False` on failure; after `claim_tokens`, the donor
    address fetch also aborts with `False` on failure (lines 367-370), a
    raising balance read is converted to `False` by the scenario's `except`
    (lines 394-396), while the swap test's boolean outcome is only logged
    (lines 377-385) and never affects the return value. -/
def test_scenario_2 (e : Scenario2Env) : Bool :=
  if e.createResult.isSome = false then false
  else if e.contributeOk = false then false
  else if e.waitOk = false then false
  else if e.poolOk = false then false
  else if truthy e.tokenAddress = false then false
  else if e.claimOk = false then false
  else if truthy e.donorAddress = false then false
  else
    match e.balanceResult with
    | .error _ => false
    | .ok _ => true

/-- Step outcomes of one execution of
    `SepoliaTestSuite.test_scenario_3_failure_and_refund`
    (sepolia_test.py 398-428), in invocation order. -/
structure Scenario3Env where
  createResult : Option (Nat × String)
  contributeOk : Bool
  waitOk : Bool
  refundOk : Bool

/-- Control flow of `test_scenario_3_failure_and_refund`: the pair is
    `(scenario result, whether refund_contribution was invoked)`.  A false
    return from `wait_for_campaign_end` aborts the scenario before the
    refund step. -/
def test_scenario_3 (e : Scenario3Env) : Bool × Bool :=
  if e.createResult.isSome = false then (false, false)
  else if e.contributeOk = false then (false, false)
  else if e.waitOk = false then (false, false)
  else if e.refundOk = false then (false, true)
  else (true, true)

/-- C2 counterexample: at `amountIn = 1000000`, `reserveIn = 100000000`,
    `reserveOut = 200000000` the code returns 1974316, not the claimed
    1982713 — the claimed example value contradicts the exact formula. -/
theorem get_amount_out_example_refutes_claim :
    get_amount_out 1000000 100000000 200000000 = 1974316 ∧
      get_amount_out 1000000 100000000 200000000 ≠ 1982713 := by
  constructor
  · decide
  · decide

/-- C2 (amended): `get_amount_out` returns 0 whenever either reserve is 0,
    otherwise returns `floor(amountIn * 997 * reserveOut /
    (reserveIn * 1000 + amountIn * 997))`; in particular for
    `amountIn = 1000000, reserveIn = 100000000, reserveOut = 200000000`
    it returns 1974316. -/
theorem get_amount_out_spec :
    (∀ a ri ro : Nat, ri = 0 ∨ ro = 0 → get_amount_out a ri ro = 0) ∧
      (∀ a ri ro : Nat, ri ≠ 0 → ro ≠ 0 →
        get_amount_out a ri ro = a * 997 * ro / (ri * 1000 + a * 997)) ∧
      get_amount_out 1000000 100000000 200000000 = 1974316 := by
  refine ⟨?_, ?_, by decide⟩
  · intro a ri ro h
    simp [get_amount_out, h]
  · intro a ri ro hri hro
    have hden : 0 < ri * 1000 + a * 997 := by
      have : 0 < ri := Nat.pos_of_ne_zero hri
      omega
    simp [get_amount_out, hri, hro, hden]

/-- C2 witness: the amended theorem applied at concrete inputs. -/
theorem get_amount_out_spec_witness :
    get_amount_out 3 0 5 = 0 ∧ get_amount_out 7 4 5 = 7 * 997 * 5 / (4 * 1000 + 7 * 997) :=
  ⟨get_amount_out_spec.1 3 0 5 (Or.inl rfl),
    get_amount_out_spec.2.1 7 4 5 (by decide) (by decide)⟩

/-- C9: `get_balance` converts an absent or empty executor result to 0, but
    a non-empty result that is not a valid base-16 numeral (e.g. `"error"`)
    makes the `int(result, 16)` parse raise, and the exception escapes
    `get_balance` instead of being converted to 0. -/
theorem get_balance_spec :
    (∀ r : Option String, truthy r = false → get_balance r = .ok 0) ∧
      get_balance none = .ok 0 ∧
      get_balance (some "") = .ok 0 ∧
      get_balance (some "error") = .error () := by
  refine ⟨?_, rfl, rfl, rfl⟩
  intro r h
  simp [get_balance, h]

/-- C9 witness: the quantified conjunct applied at the concrete absent
    result. -/
theorem get_balance_spec_witness :
    get_balance none = Except.ok 0 :=
  get_balance_spec.1 none rfl

/-- The assembled cast command equals the base command with the signing-key
    flag appended exactly when the literal token `"send"` is an element of
    the argument list. -/
lemma full_command_eq (rpc key : String) (cmd : List String) :
    full_command rpc key cmd =
      baseCommand rpc cmd ++ (if "send" ∈ cmd then ["--private-key", key] else []) := by
  by_cases hs : "send" ∈ cmd
  · have hc : cmd.contains "send" = true := by
      simpa [List.contains] using List.elem_iff.mpr hs
    simp [full_command, hs, hc, List.any]
  · have hc : cmd.contains "send" = false := by
      rcases h : cmd.contains "send" with _ | _
      · rfl
      · exact absurd (List.elem_iff.mp (by simpa [List.contains] using h)) hs
    by_cases hcall : cmd.contains "call" = true
    · simp [full_command, hs, hc, hcall, List.any]
    · simp [full_command, hs, hc, List.any, hcall]

/-- C3: `run_cast_command` appends the `--private-key` flag to the
    assembled command if and only if the literal token `"send"` occurs as
    an element of the argument list; in particular a `"call"` argument list
    without an exact `"send"` element never receives the flag, even when
    some argument merely contains `"send"` as a substring. -/
theorem full_command_key_iff_send :
    (∀ rpc key cmd,
      full_command rpc key cmd =
        baseCommand rpc cmd ++ (if "send" ∈ cmd then ["--private-key", key] else [])) ∧
      (∀ rpc key args, "send" ∉ args →
        full_command rpc key ("call" :: args) = baseCommand rpc ("call" :: args)) := by
  refine ⟨full_command_eq, ?_⟩
  intro rpc key args h
  have hmem : "send" ∉ ("call" :: args) := by
    intro hx
    rcases List.mem_cons.mp hx with h1 | h1
    · exact absurd h1 (by decide)
    · exact h h1
  simp [full_command_eq, hmem]

/-- C3 witness: the theorem applied to a `call` command whose argument
    contains `"send"` as a substring but not as an element. -/
theorem full_command_key_iff_send_witness :
    full_command "https://rpc.example" "0xkey" ["call", "0xabc", "sendMoney(uint256)"] =
      baseCommand "https://rpc.example" ["call", "0xabc", "sendMoney(uint256)"] :=
  full_command_key_iff_send.2 "https://rpc.example" "0xkey" ["0xabc", "sendMoney(uint256)"]
    (by decide)

/-- C4: every subprocess failure mode of `run_cast_command` (timeout,
    other exception, non-zero exit code) yields the absent result `none`
    rather than an escaping error, the only log line quoting the command
    contains exactly the first three tokens of the assembled command, and
    the configured private key is not among those tokens (it is appended,
    when at all, at the very end of the command, far beyond the logged
    prefix). -/
theorem run_cast_command_failures_spec :
    run_cast_command .timeout = none ∧
      (∀ m, run_cast_command (.raised m) = none) ∧
      (∀ rc out err, rc ≠ 0 → run_cast_command (.completed rc out err) = none) ∧
      (∀ rpc key cmd, loggedExecutingTokens rpc key cmd = (full_command rpc key cmd).take 3) ∧
      (∀ rpc key cmd, key ≠ "cast" → key ≠ "--rpc-url" → key ≠ rpc →
        key ∉ cmd.take 2 → key ∉ loggedExecutingTokens rpc key cmd) := by
  refine ⟨rfl, fun m => rfl, ?_, fun rpc key cmd => rfl, ?_⟩
  · intro rc out err h
    simp [run_cast_command, h]
  · intro rpc key cmd h1 h2 h3 h4
    rw [loggedExecutingTokens, full_command_eq]
    match cmd with
    | [] =>
      simp [baseCommand]
      exact ⟨h1, h2, h3⟩
    | [a] =>
      have ha : key ≠ a := by
        intro he
        exact h4 (by simp [he])
      by_cases hs : "send" ∈ [a] <;> simp [baseCommand, hs, List.take] <;>
        exact ⟨h1, ha, h2⟩
    | a :: b :: t =>
      have ha : key ≠ a ∧ key ≠ b := by
        constructor <;> intro he <;> exact h4 (by simp [he])
      by_cases hs : "send" ∈ a :: b :: t <;> simp [baseCommand, hs, List.take] <;>
        exact ⟨h1, ha.1, ha.2⟩

/-- C4 witness: the failure conjuncts and the logging conjunct applied at
    concrete inputs. -/
theorem run_cast_command_failures_spec_witness :
    run_cast_command (.completed 1 "" "revert") = none ∧
      "0xsecretkey" ∉ loggedExecutingTokens "https://rpc.example" "0xsecretkey"
        ["send", "0xabc", "contribute(uint256)", "1000000"] :=
  ⟨run_cast_command_failures_spec.2.2.1 1 "" "revert" (by decide),
    run_cast_command_failures_spec.2.2.2.2 "https://rpc.example" "0xsecretkey"
      ["send", "0xabc", "contribute(uint256)", "1000000"]
      (by decide) (by decide) (by decide) (by decide)⟩

/-- Zfill pads to exactly the requested width when the input is shorter,
    and leaves longer inputs alone. -/
lemma pyZfill_length (w : Nat) (s : List Char) : (pyZfill w s).length = max s.length w := by
  rw [pyZfill.eq_def]
  split
  · omega
  · cases s with
    | nil => simp
    | cons c rest =>
      by_cases hc : c = '+' ∨ c = '-'
      · simp only [if_pos hc, List.length_cons, List.length_append, List.length_replicate] at *
        omega
      · simp only [if_neg hc, List.length_cons, List.length_append, List.length_replicate] at *
        omega

/-- Zfill of a short input not starting with a sign is a plain left pad
    with zeros. -/
lemma pyZfill_no_sign (w : Nat) (c : Char) (rest : List Char)
    (hlen : (c :: rest).length < w) (hsign : ¬ (c = '+' ∨ c = '-')) :
    pyZfill w (c :: rest) = List.replicate (w - (c :: rest).length) '0' ++ (c :: rest) := by
  rw [pyZfill.eq_def, if_neg (by omega)]
  simp only [if_neg hsign]

/-- Zfill is the identity on inputs at least as long as the width. -/
lemma pyZfill_of_le (w : Nat) (s : List Char) (h : w ≤ s.length) : pyZfill w s = s := by
  rw [pyZfill.eq_def, if_pos h]

/-- The campaign-address hex normalization always produces exactly 40
    characters. -/
lemma normalizeHex40_length (h : List Char) : (normalizeHex40 h).length = 40 := by
  rw [normalizeHex40]
  split
  · simp only [List.length_drop]
    omega
  · split
    · rw [pyZfill_length]
      omega
    · omega

/-- The campaign-address hex normalization is the identity on inputs of
    exactly 40 characters. -/
lemma normalizeHex40_of_length_eq (h : List Char) (hl : h.length = 40) :
    normalizeHex40 h = h := by
  rw [normalizeHex40, if_neg (by omega), if_neg (by omega)]

/-- C5: campaign-address canonicalization is idempotent and
    length-normalizing — a result starting with `0x` always ends up with
    exactly 40 characters after the prefix (the last 40 are kept when more
    are present, zeros are padded in front when fewer are present and the
    digits are hex digits), re-applying the normalization changes nothing,
    a result not starting with `0x` is returned unchanged, and `"0xABC"`
    normalizes to `"0x"` followed by 37 zeros and `"ABC"`. -/
theorem canonicalizeAddress_spec :
    (∀ r : List Char, r.take 2 = ['0', 'x'] →
        (canonicalizeAddress r).take 2 = ['0', 'x'] ∧
          ((canonicalizeAddress r).drop 2).length = 40) ∧
      (∀ r : List Char, r.take 2 = ['0', 'x'] → 40 < (r.drop 2).length →
        canonicalizeAddress r = ['0', 'x'] ++ (r.drop 2).drop ((r.drop 2).length - 40)) ∧
      (∀ r : List Char, r.take 2 = ['0', 'x'] → (r.drop 2).length < 40 →
        (∀ c ∈ r.drop 2, (hexDigitVal c).isSome = true) →
        canonicalizeAddress r =
          ['0', 'x'] ++ (List.replicate (40 - (r.drop 2).length) '0' ++ r.drop 2)) ∧
      (∀ r : List Char, canonicalizeAddress (canonicalizeAddress r) = canonicalizeAddress r) ∧
      (∀ r : List Char, r.take 2 ≠ ['0', 'x'] → canonicalizeAddress r = r) ∧
      canonicalizeAddress ['0', 'x', 'A', 'B', 'C'] =
        ['0', 'x'] ++ (List.replicate 37 '0' ++ ['A', 'B', 'C']) := by
  refine ⟨?_, ?_, ?_, ?_, ?_, by decide⟩
  · intro r h
    rw [canonicalizeAddress, if_pos h]
    constructor
    · rfl
    · simpa using normalizeHex40_length (r.drop 2)
  · intro r h hl
    rw [canonicalizeAddress, if_pos h, normalizeHex40, if_pos hl]
  · intro r h hl hhex
    rw [canonicalizeAddress, if_pos h, normalizeHex40, if_neg (by omega), if_pos hl]
    congr 1
    match hdrop : r.drop 2 with
    | [] => decide
    | c :: rest =>
      have hc : (hexDigitVal c).isSome = true := by
        apply hhex
        rw [hdrop]
        exact List.mem_cons_self c rest
      have hsign : ¬ (c = '+' ∨ c = '-') := by
        rintro (rfl | rfl) <;> simp [hexDigitVal] at hc
      rw [hdrop] at hl
      exact pyZfill_no_sign 40 c rest hl hsign
  · intro r
    by_cases h : r.take 2 = ['0', 'x']
    · have h1 : canonicalizeAddress r = ['0', 'x'] ++ normalizeHex40 (r.drop 2) := by
        rw [canonicalizeAddress, if_pos h]
      rw [h1, canonicalizeAddress, if_pos (by rfl)]
      congr 1
      exact normalizeHex40_of_length_eq _ (normalizeHex40_length _)
    · have h1 : canonicalizeAddress r = r := by
        rw [canonicalizeAddress, if_neg h]
      rw [h1, h1]
  · intro r h
    rw [canonicalizeAddress, if_neg h]

/-- C5 witness: the quantified conjuncts applied at concrete inputs —
    a 44-hex-digit padded result keeps its last 40 digits, `"0xABC"` is
    padded, and a non-`0x` result is returned unchanged. -/
theorem canonicalizeAddress_spec_witness :
    canonicalizeAddress ('0' :: 'x' :: List.replicate 44 '1') =
      ['0', 'x'] ++ ((('0' :: 'x' :: List.replicate 44 '1').drop 2).drop
        ((('0' :: 'x' :: List.replicate 44 '1').drop 2).length - 40)) ∧
      canonicalizeAddress ['0', 'x', 'A', 'B', 'C'] =
        ['0', 'x'] ++ (List.replicate 37 '0' ++ ['A', 'B', 'C']) ∧
      canonicalizeAddress ['d', 'e', 'a', 'd'] = ['d', 'e', 'a', 'd'] :=
  ⟨canonicalizeAddress_spec.2.1 ('0' :: 'x' :: List.replicate 44 '1') (by decide) (by simp),
    canonicalizeAddress_spec.2.2.1 ['0', 'x', 'A', 'B', 'C'] (by decide) (by decide) (by decide),
    canonicalizeAddress_spec.2.2.2.2.1 ['d', 'e', 'a', 'd'] (by decide)⟩

/-- C10 counterexample: the empty string is a non-absent executor result
    different from the 42-character all-zero address, yet `get_pair_address`
    returns the absent result for it (the truthiness guard also rejects
    `""`), contradicting the claim's universal quantification over all
    non-absent results. -/
theorem get_pair_address_empty_counterexample :
    get_pair_address (some []) = none ∧ ([] : List Char) ≠ zeroAddress := by
  constructor
  · rfl
  · decide

/-- C10 (amended): for every non-absent and non-empty executor result other
    than the 42-character all-zero address, `get_pair_address` returns
    `"0x"` followed by the result's characters after position 2 zero-filled
    to at least 40 characters — it never truncates, so a 64-hex-digit
    ABI-padded value yields a 66-character output, and in particular the
    all-zero value padded to 64 hex digits is returned as an address rather
    than recognized as "no pair exists", unlike the campaign-address
    canonicalization, which truncates it to the 42-character zero address. -/
theorem get_pair_address_spec :
    (∀ r : List Char, r ≠ [] → r ≠ zeroAddress →
        get_pair_address (some r) = some (['0', 'x'] ++ pyZfill 40 (r.drop 2))) ∧
      (∀ r : List Char, r ≠ [] → r ≠ zeroAddress → 40 ≤ (r.drop 2).length →
        get_pair_address (some r) = some (['0', 'x'] ++ r.drop 2)) ∧
      get_pair_address (some ('0' :: 'x' :: List.replicate 64 '0')) =
        some ('0' :: 'x' :: List.replicate 64 '0') ∧
      ('0' :: 'x' :: List.replicate 64 '0' : List Char).length = 66 ∧
      canonicalizeAddress ('0' :: 'x' :: List.replicate 64 '0') = zeroAddress := by
  have h1 : ∀ r : List Char, r ≠ [] → r ≠ zeroAddress →
      get_pair_address (some r) = some (['0', 'x'] ++ pyZfill 40 (r.drop 2)) := by
    intro r hne hz
    rw [get_pair_address, if_pos ⟨hne, hz⟩]
  refine ⟨h1, ?_, ?_, by simp, ?_⟩
  · intro r hne hz hlen
    rw [h1 r hne hz, pyZfill_of_le 40 (r.drop 2) hlen]
  · exact (h1 ('0' :: 'x' :: List.replicate 64 '0') (by simp) (by decide)).trans (by decide)
  · decide

/-- C10 witness: the amended theorem's quantified conjuncts applied at a
    concrete short result and a concrete 64-digit result. -/
theorem get_pair_address_spec_witness :
    get_pair_address (some ['0', 'x', 'a', 'b']) =
      some (['0', 'x'] ++ pyZfill 40 ['a', 'b']) ∧
      get_pair_address (some ('0' :: 'x' :: List.replicate 64 '1')) =
        some (['0', 'x'] ++ List.replicate 64 '1') := by
  constructor
  · exact get_pair_address_spec.1 ['0', 'x', 'a', 'b'] (by decide) (by decide)
  · have := get_pair_address_spec.2.1 ('0' :: 'x' :: List.replicate 64 '1')
      (by simp) (by decide) (by simp)
    simpa using this

/-- The `all` guard of `_load_config` succeeds exactly when the missing
    list is empty. -/
lemma missingVars_empty_iff (e : EnvVars) :
    ([e.rpc_url, e.creator_private_key, e.donor_private_key,
      e.crowdfunding_factory_address, e.usdc_token_address].all truthy) = true ↔
      missingVars e = [] := by
  cases h1 : truthy e.rpc_url <;> cases h2 : truthy e.creator_private_key <;>
    cases h3 : truthy e.donor_private_key <;>
    cases h4 : truthy e.crowdfunding_factory_address <;>
    cases h5 : truthy e.usdc_token_address <;>
    simp [missingVars, List.all, h1, h2, h3, h4, h5]

/-- Every element of a list occurs as a contiguous substring of its
    comma-join. -/
lemma mem_joinComma_infix (name : String) :
    ∀ l : List String, name ∈ l → name.data <:+: (joinComma l).data := by
  intro l
  induction l with
  | nil => intro h; exact absurd h (List.not_mem_nil name)
  | cons a t ih =>
    intro h
    cases t with
    | nil =>
      have hna : name = a := by simpa using h
      subst hna
      exact List.infix_rfl
    | cons b t2 =>
      rcases List.mem_cons.mp h with rfl | hmem
      · exact ⟨[], ((", " : String) ++ joinComma (b :: t2)).data,
          by simp [joinComma, List.append_assoc]⟩
      · obtain ⟨s, t3, hst⟩ := ih hmem
        exact ⟨((a : String) ++ ", ").data ++ s, t3,
          by rw [joinComma]; simp [← hst, List.append_assoc]⟩

/-- C8: when one or more of the five required environment variables is
    unset or empty, `_load_config` raises a configuration error whose
    message names every missing variable (each missing name is in the
    enumerated list, and each listed name occurs verbatim in the message);
    when all five are present the record is built with funding goal
    1000000000, campaign duration 120 and minimum contribution 1000000. -/
theorem load_config_spec :
    (∀ e : EnvVars, missingVars e ≠ [] →
        _load_config e =
          .error ("Missing environment variables: " ++ joinComma (missingVars e))) ∧
      (∀ e : EnvVars,
        (("RPC_URL" ∈ missingVars e) ↔ truthy e.rpc_url = false) ∧
          (("CREATOR_PRIVATE_KEY" ∈ missingVars e) ↔ truthy e.creator_private_key = false) ∧
          (("DONOR_PRIVATE_KEY" ∈ missingVars e) ↔ truthy e.donor_private_key = false) ∧
          (("CROWDFUNDING_FACTORY_ADDRESS" ∈ missingVars e) ↔
            truthy e.crowdfunding_factory_address = false) ∧
          (("USDC_TOKEN_ADDRESS" ∈ missingVars e) ↔ truthy e.usdc_token_address = false)) ∧
      (∀ e : EnvVars, ∀ name ∈ missingVars e,
        name.data <:+: ("Missing environment variables: " ++ joinComma (missingVars e)).data) ∧
      (∀ e : EnvVars, missingVars e = [] →
        ∃ cfg, _load_config e = .ok cfg ∧ cfg.funding_goal = 1000000000 ∧
          cfg.campaign_duration = 120 ∧ cfg.min_contribution = 1000000) := by
  refine ⟨?_, ?_, ?_, ?_⟩
  · intro e h
    rw [_load_config, if_pos]
    intro hall
    exact h ((missingVars_empty_iff e).mp hall)
  · intro e
    refine ⟨?_, ?_, ?_, ?_, ?_⟩ <;>
      · cases h1 : truthy e.rpc_url <;> cases h2 : truthy e.creator_private_key <;>
          cases h3 : truthy e.donor_private_key <;>
          cases h4 : truthy e.crowdfunding_factory_address <;>
          cases h5 : truthy e.usdc_token_address <;>
          simp [missingVars, h1, h2, h3, h4, h5]
  · intro e name hmem
    obtain ⟨s, t, hst⟩ := mem_joinComma_infix name (missingVars e) hmem
    exact ⟨("Missing environment variables: " : String).data ++ s, t,
      by rw [String.data_append, ← hst]; simp [List.append_assoc]⟩
  · intro e h
    rw [_load_config, if_neg (not_not_intro ((missingVars_empty_iff e).mpr h))]
    exact ⟨_, rfl, rfl, rfl, rfl⟩

/-- C8 witness: the theorem applied to a partial environment omitting the
    donor key and the stablecoin address — both names are enumerated and
    both occur in the message — and to a complete environment. -/
theorem load_config_spec_witness :
    _load_config ⟨some "https://rpc.example", some "0xc", none, some "0xf", some ""⟩ =
        .error ("Missing environment variables: " ++
          joinComma (missingVars
            ⟨some "https://rpc.example", some "0xc", none, some "0xf", some ""⟩)) ∧
      ("DONOR_PRIVATE_KEY" : String).data <:+:
        ("Missing environment variables: " ++
          joinComma (missingVars
            ⟨some "https://rpc.example", some "0xc", none, some "0xf", some ""⟩)).data ∧
      ("USDC_TOKEN_ADDRESS" : String).data <:+:
        ("Missing environment variables: " ++
          joinComma (missingVars
            ⟨some "https://rpc.example", some "0xc", none, some "0xf", some ""⟩)).data ∧
      ∃ cfg, _load_config ⟨some "https://rpc.example", some "0xc", some "0xd",
          some "0xf", some "0xu"⟩ = .ok cfg ∧ cfg.funding_goal = 1000000000 ∧
        cfg.campaign_duration = 120 ∧ cfg.min_contribution = 1000000 :=
  ⟨load_config_spec.1 ⟨some "https://rpc.example", some "0xc", none, some "0xf", some ""⟩
      (by decide),
    load_config_spec.2.2.1 ⟨some "https://rpc.example", some "0xc", none, some "0xf", some ""⟩
      "DONOR_PRIVATE_KEY" (by decide),
    load_config_spec.2.2.1 ⟨some "https://rpc.example", some "0xc", none, some "0xf", some ""⟩
      "USDC_TOKEN_ADDRESS" (by decide),
    load_config_spec.2.2.2 ⟨some "https://rpc.example", some "0xc", some "0xd",
      some "0xf", some "0xu"⟩ (by decide)⟩

/-- When every iteration of the poll observes a failed state read or the
    Active state, the loop can only terminate with `false`. -/
lemma waitLoop_inactive :
    ∀ obs : List PollObs,
      (∀ o ∈ obs, truthy o.stateResult = false ∨
        pyIntBase16 (o.stateResult.getD "") = some 0) →
      ∀ elapsed maxWait, ∃ s, waitLoop obs elapsed maxWait = .ok (false, s) := by
  intro obs
  induction obs with
  | nil => intro h elapsed maxWait; exact ⟨0, rfl⟩
  | cons o rest ih =>
    intro h elapsed maxWait
    by_cases hlt : elapsed < maxWait
    · obtain ⟨s, hs⟩ := ih (fun x hx => h x (List.mem_cons_of_mem o hx))
        (elapsed + pollPreSleep o + 10) maxWait
      rcases h o (List.mem_cons_self o rest) with hf | h0
      · exact ⟨pollPreSleep o + 10 + s, by simp [waitLoop, hlt, hf, pollContinue, hs]⟩
      · cases ht : truthy o.stateResult with
        | true => exact ⟨pollPreSleep o + 10 + s,
            by simp [waitLoop, hlt, ht, h0, pollContinue, hs]⟩
        | false => exact ⟨pollPreSleep o + 10 + s,
            by simp [waitLoop, hlt, ht, pollContinue, hs]⟩
    · exact ⟨0, by simp [waitLoop, hlt]⟩

/-- C6: the end-of-campaign poll returns true the moment a state read
    parses to 1 (Succeeded) and false the moment it parses to 2 (Failed) —
    in both cases the only sleep of that iteration is the 5-second
    post-update sleep preceding the read, no further sleep or iteration
    follows — and when every read within the window observes Active (0) or
    fails, the loop returns false once the 150-second default window is
    covered by the trace. -/
theorem wait_for_campaign_end_spec :
    (∀ (o : PollObs) (rest : List PollObs) (elapsed maxWait : Nat),
        elapsed < maxWait → truthy o.stateResult = true →
        pyIntBase16 (o.stateResult.getD "") = some 1 →
        waitLoop (o :: rest) elapsed maxWait = .ok (true, pollPreSleep o)) ∧
      (∀ (o : PollObs) (rest : List PollObs) (elapsed maxWait : Nat),
        elapsed < maxWait → truthy o.stateResult = true →
        pyIntBase16 (o.stateResult.getD "") = some 2 →
        waitLoop (o :: rest) elapsed maxWait = .ok (false, pollPreSleep o)) ∧
      (∀ obs : List PollObs, 150 ≤ 10 * obs.length →
        (∀ o ∈ obs, truthy o.stateResult = false ∨
          pyIntBase16 (o.stateResult.getD "") = some 0) →
        ∃ s, wait_for_campaign_end obs 150 = .ok (false, s)) := by
  refine ⟨?_, ?_, ?_⟩
  · intro o rest elapsed maxWait hlt ht hp
    simp [waitLoop, hlt, ht, hp]
  · intro o rest elapsed maxWait hlt ht hp
    simp [waitLoop, hlt, ht, hp]
  · intro obs hcover h
    exact waitLoop_inactive obs h 0 150

/-- C6 witness: a succeeding first read ends the loop at once with only the
    5-second post-update sleep performed, a failing-state read ends it with
    false, and a 15-iteration all-Active trace (covering the 150-second
    window) ends in false. -/
theorem wait_for_campaign_end_spec_witness :
    waitLoop (⟨some "0xtxhash", some "1"⟩ :: [⟨none, some "2"⟩]) 0 150 =
        .ok (true, pollPreSleep ⟨some "0xtxhash", some "1"⟩) ∧
      waitLoop [⟨none, some "2"⟩] 0 150 = .ok (false, pollPreSleep ⟨none, some "2"⟩) ∧
      ∃ s, wait_for_campaign_end (List.replicate 15 ⟨none, none⟩) 150 = .ok (false, s) :=
  ⟨wait_for_campaign_end_spec.1 ⟨some "0xtxhash", some "1"⟩ [⟨none, some "2"⟩] 0 150
      (by decide) (by decide) (by decide),
    wait_for_campaign_end_spec.2.1 ⟨none, some "2"⟩ [] 0 150
      (by decide) (by decide) (by decide),
    wait_for_campaign_end_spec.2.2 (List.replicate 15 ⟨none, none⟩) (by simp)
      (fun o ho => Or.inl (by rw [List.eq_of_mem_replicate ho]; rfl))⟩

/-- C1 counterexample: an execution in which campaign creation,
    contribution, waiting, pool creation, token-address resolution and
    claim-tokens all succeed, but the donor address fetch — one of the
    swap-probing steps the claim says cannot affect the result — returns
    the absent result, makes Scenario 2 report false (sepolia_test.py
    lines 367-370 return False in that case), refuting the claim that the
    result is true regardless of the probing steps' outcomes. -/
theorem test_scenario_2_counterexample :
    test_scenario_2
        { createResult := some (0, "0xcafe"), contributeOk := true, waitOk := true,
          poolOk := true, tokenAddress := some "0xfeed", claimOk := true,
          donorAddress := none, balanceResult := .ok 0, swapOk := true } = false := by
  rfl

/-- C1 (amended): given all lifecycle steps through claim-tokens succeed,
    Scenario 2's result is true regardless of the token balance value and
    of the swap test's outcome, provided the donor address fetch succeeds
    and the balance read does not raise; a failing donor address fetch
    makes the scenario return false, and the swap test's boolean outcome
    never influences the result. -/
theorem test_scenario_2_spec :
    (∀ e : Scenario2Env, e.createResult.isSome = true → e.contributeOk = true →
        e.waitOk = true → e.poolOk = true → truthy e.tokenAddress = true →
        e.claimOk = true → truthy e.donorAddress = true →
        (∃ b, e.balanceResult = .ok b) → test_scenario_2 e = true) ∧
      (∀ e : Scenario2Env,
        test_scenario_2 { e with swapOk := true } =
          test_scenario_2 { e with swapOk := false }) ∧
      (∀ e : Scenario2Env, truthy e.donorAddress = false → test_scenario_2 e = false) := by
  refine ⟨?_, ?_, ?_⟩
  · intro e h1 h2 h3 h4 h5 h6 h7 ⟨b, h8⟩
    simp [test_scenario_2, h1, h2, h3, h4, h5, h6, h7, h8]
  · intro e
    simp [test_scenario_2]
  · intro e h
    by_cases h1 : e.createResult.isSome = true <;>
      by_cases h2 : e.contributeOk = true <;>
      by_cases h3 : e.waitOk = true <;>
      by_cases h4 : e.poolOk = true <;>
      by_cases h5 : truthy e.tokenAddress = true <;>
      by_cases h6 : e.claimOk = true <;>
      simp_all [test_scenario_2]

/-- C1 witness: the amended theorem applied to a fully successful
    execution with a failing swap test, and to the same execution with the
    donor address fetch failing. -/
theorem test_scenario_2_spec_witness :
    test_scenario_2
        { createResult := some (0, "0xcafe"), contributeOk := true, waitOk := true,
          poolOk := true, tokenAddress := some "0xfeed", claimOk := true,
          donorAddress := some "0xd0", balanceResult := .ok 1000, swapOk := false } = true ∧
      test_scenario_2
        { createResult := some (0, "0xcafe"), contributeOk := true, waitOk := true,
          poolOk := true, tokenAddress := some "0xfeed", claimOk := true,
          donorAddress := none, balanceResult := .ok 1000, swapOk := false } = false :=
  ⟨test_scenario_2_spec.1
      { createResult := some (0, "0xcafe"), contributeOk := true, waitOk := true,
        poolOk := true, tokenAddress := some "0xfeed", claimOk := true,
        donorAddress := some "0xd0", balanceResult := .ok 1000, swapOk := false }
      rfl rfl rfl rfl rfl rfl rfl ⟨1000, rfl⟩,
    test_scenario_2_spec.2.2
      { createResult := some (0, "0xcafe"), contributeOk := true, waitOk := true,
        poolOk := true, tokenAddress := some "0xfeed", claimOk := true,
        donorAddress := none, balanceResult := .ok 1000, swapOk := false }
      rfl⟩

/-- C7: Scenario 3 returns false and never issues the refund transaction
    whenever `wait_for_campaign_end` returns false — including the
    expected path where the campaign reaches the Failed state — and
    returns true exactly when creation, the contribution, the wait and the
    refund all report success. -/
theorem test_scenario_3_spec :
    (∀ e : Scenario3Env, e.waitOk = false → test_scenario_3 e = (false, false)) ∧
      (∀ e : Scenario3Env, (test_scenario_3 e).1 = true ↔
        (e.createResult.isSome = true ∧ e.contributeOk = true ∧
          e.waitOk = true ∧ e.refundOk = true)) := by
  constructor
  · intro e h
    by_cases h1 : e.createResult.isSome = true <;>
      by_cases h2 : e.contributeOk = true <;>
      simp_all [test_scenario_3]
  · intro e
    by_cases h1 : e.createResult.isSome = true <;>
      by_cases h2 : e.contributeOk = true <;>
      by_cases h3 : e.waitOk = true <;>
      by_cases h4 : e.refundOk = true <;>
      simp_all [test_scenario_3]

/-- C7 witness: the theorem applied to an execution whose wait step
    returns false (the expected Failed outcome) — the scenario fails
    without attempting the refund — and to a fully successful execution. -/
theorem test_scenario_3_spec_witness :
    test_scenario_3 ⟨some (0, "0xcafe"), true, false, true⟩ = (false, false) ∧
      ((test_scenario_3 ⟨some (0, "0xcafe"), true, true, true⟩).1 = true ↔
        ((some (0, "0xcafe") : Option (Nat × String)).isSome = true ∧ true = true ∧
          true = true ∧ true = true)) :=
  ⟨test_scenario_3_spec.1 ⟨some (0, "0xcafe"), true, false, true⟩ rfl,
    test_scenario_3_spec.2 ⟨some (0, "0xcafe"), true, true, true⟩⟩
